import Mathlib

/-!
# Verification of the dante-backend auth-service credential/token core

Shallow embedding of the credential/token lifecycle of the repository's
auth service, covering the two near-duplicate variants:

* `DanteAuth.MainApp` — `src/auth-service/app/main.py` together with
  `app/db/crud/crud_user.py`, `app/core/security.py` and
  `app/schemas/user.py`;
* `DanteAuth.SimpleAuth` — `src/auth-service/simple_auth.py`.

Timestamps and instants are naturals (seconds).  Password hashing
(passlib bcrypt) is modelled as an idealized salted hash: a digest
records its salt and the key derived from the plaintext, and key
derivation is collision-free.  Malformed digest strings are a separate
constructor, on which passlib's `verify` raises `UnknownHashError`
rather than returning a boolean — faithful to `CryptContext.verify`.

JWTs of the main app are modelled as signed claim sets: a token carries
its payload and the secret it was signed with, and `jwt.decode` succeeds
exactly when the secret matches and the expiry has not passed (python-jose
raises `ExpiredSignatureError`, a `JWTError`, when `exp < now`).

A note on the `role` attribute: `app/db/models/user.py` has dropped the
`role` column in favour of RBAC association tables, while `main.py` and
`crud_user.py` still treat `user.role` as a plain column.  The embedding
models this faithfully: the main app's user row has no `role` field;
`User(role=...)` in `create_user` raises `TypeError` (SQLAlchemy rejects
an unmapped constructor keyword), so no registration ever creates a
user; reading `user.role` on a freshly loaded row raises
`AttributeError`, which escapes uncaught on the login/refresh success
paths and surfaces as a 500; and `setattr(db_user, "role", v)` in
`update_user` creates only a transient Python attribute that is never
persisted.  SQLAlchemy emits an UPDATE (and hence fires the
`updated_at` column's `onupdate`) only when some mapped column's value
actually changes.  `simple_auth.py`'s own model does declare a `role`
column, and is embedded with one.
-/

namespace DanteAuth

/-! ## Passlib `CryptContext(schemes=["bcrypt"])` model -/

/-- A stored digest: either a well-formed bcrypt hash carrying its salt
and derived key, or a string that does not parse as any known hash
scheme. -/
inductive Digest where
  | bcrypt (salt : Nat) (key : String)
  | malformed (raw : String)
deriving DecidableEq, Repr

/-- Errors passlib raises out of `verify`: `UnknownHashError` when the
digest does not parse as any configured scheme. -/
inductive HasherError where
  | unknownHash
deriving DecidableEq, Repr

/-- `pwd_context.hash(password)` — bcrypt with a (modelled explicit)
salt; key derivation is idealized as collision-free. -/
def pwdContextHash (password : String) (salt : Nat) : Digest :=
  .bcrypt salt password

/-- `pwd_context.verify(plain, digest)`: re-hash the plaintext with the
digest's embedded salt and compare; raise `UnknownHashError` on a
malformed digest. -/
def pwdContextVerify (plain : String) (d : Digest) : Except HasherError Bool :=
  match d with
  | .bcrypt salt key =>
      .ok (decide (pwdContextHash plain salt = Digest.bcrypt salt key))
  | .malformed _ => .error .unknownHash

/-- An HTTP error response: `HTTPException(status_code, detail)`. -/
structure HttpError where
  status : Nat
  detail : String
deriving DecidableEq, Repr

instance {ε α : Type} [DecidableEq ε] [DecidableEq α] :
    DecidableEq (Except ε α) := fun x y =>
  match x, y with
  | .ok a, .ok b =>
      if h : a = b then isTrue (by rw [h])
      else isFalse (by intro hh; cases hh; exact h rfl)
  | .error a, .error b =>
      if h : a = b then isTrue (by rw [h])
      else isFalse (by intro hh; cases hh; exact h rfl)
  | .ok _, .error _ => isFalse (by intro hh; cases hh)
  | .error _, .ok _ => isFalse (by intro hh; cases hh)

namespace MainApp

/-! ## `app/core/security.py` -/

/-- `verify_password(plain_password, hashed_password)` — a bare call into
passlib; exceptions propagate. -/
def verify_password (plain_password : String) (hashed_password : Digest) :
    Except HasherError Bool :=
  pwdContextVerify plain_password hashed_password

/-- `get_password_hash(password)` — passlib bcrypt hash (salt made
explicit). -/
def get_password_hash (password : String) (salt : Nat) : Digest :=
  pwdContextHash password salt

/-! ## User records (`app/db/models/user.py`) -/

/-- A row of the `users` table.  The declarative model has **no** `role`
column ("'role' string column is removed" — roles are managed via the
RBAC association tables); the mapped columns are the ones below.  `id`
is the UUID rendered as a string. -/
structure User where
  id : String
  email : String
  username : String
  hashed_password : Digest
  is_active : Bool
  is_verified : Bool
  created_at : Nat
  updated_at : Nat
  last_login_at : Option Nat
deriving DecidableEq, Repr

/-- Python exceptions the flow code raises by treating `role` as a
column: the declarative constructor rejects an unmapped keyword with
`TypeError`, and reading a plain attribute that was never set raises
`AttributeError`. -/
inductive PyException where
  | typeError
  | attributeError
deriving DecidableEq, Repr

/-- The database state: the rows of the `users` table in storage order. -/
abbrev Db := List User

/-! ## `app/db/crud/crud_user.py` lookups -/

/-- `get_user_by_username`: first row with the given username. -/
def get_user_by_username (db : Db) (username : String) : Option User :=
  db.find? (fun u => u.username = username)

/-- `get_user_by_email`: first row with the given email. -/
def get_user_by_email (db : Db) (email : String) : Option User :=
  db.find? (fun u => u.email = email)

/-- `authenticate_user(db, username, password)`: `None` when the user is
missing, inactive, or the password fails verification; the user row
otherwise.  The passlib exception from a malformed stored digest
propagates. -/
def authenticate_user (db : Db) (username password : String) :
    Except HasherError (Option User) :=
  match get_user_by_username db username with
  | none => .ok none
  | some user =>
      if !user.is_active then .ok none
      else do
        let ok ← verify_password password user.hashed_password
        pure (if ok then some user else none)

/-! ## Pydantic schemas (`app/schemas/user.py`) -/

/-- `UserUpdate`: all fields optional; `none` means the field was not
supplied (pydantic `exclude_unset=True` semantics — an update set is a
partial assignment of values).  The schema constrains a supplied
password to at least 8 characters (`min_length=8`). -/
structure UserUpdate where
  email : Option String := none
  username : Option String := none
  role : Option String := none
  is_active : Option Bool := none
  password : Option String := none
deriving DecidableEq, Repr

/-- The pydantic validation constraint on `UserUpdate`:
`password: Optional[str] = Field(default=None, min_length=8)`. -/
def UserUpdate.Valid (upd : UserUpdate) : Prop :=
  ∀ p, upd.password = some p → 8 ≤ p.length

instance (upd : UserUpdate) : Decidable upd.Valid := by
  unfold UserUpdate.Valid
  cases upd.password with
  | none => exact isTrue (by intro p hp; cases hp)
  | some q =>
      by_cases h : 8 ≤ q.length
      · exact isTrue (by intro p hp; cases hp; exact h)
      · exact isFalse (by intro hall; exact h (hall q rfl))

/-! ## `update_user` (`app/db/crud/crud_user.py`)

`update_data = user_in.model_dump(exclude_unset=True)`; a truthy
supplied password (non-empty, mirroring `if update_data.get("password")`
with Python truthiness; the schema anyway forbids short ones) is hashed
into `hashed_password` and the plaintext deleted from the update set;
each remaining entry is `setattr` onto the ORM object.  `email`,
`username` and `is_active` are mapped columns; `role` is **not** — its
`setattr` creates only a transient Python attribute that is never
persisted.  On commit SQLAlchemy emits an UPDATE only when some mapped
column's value actually changed, and only then does the `updated_at`
column's `onupdate=func.now()` fire; `db.refresh` reloads the columns
and leaves the transient attribute in place. -/

/-- The row `update_user` stages before commit: the supplied column
fields applied over the current row (`updated_at` untouched at this
point). -/
def UserUpdate.appliedRow (user_in : UserUpdate) (db_user : User)
    (salt : Nat) : User :=
  let hp :=
    match user_in.password with
    | some p => if p = "" then db_user.hashed_password
                else get_password_hash p salt
    | none => db_user.hashed_password
  { db_user with
      email := user_in.email.getD db_user.email
      username := user_in.username.getD db_user.username
      is_active := user_in.is_active.getD db_user.is_active
      hashed_password := hp }

/-- `update_user(db, db_user, user_in)`: returns the row after commit
and refresh, paired with the transient `role` attribute the `setattr`
loop left on the object (present exactly when `role` was supplied).
`updated_at` is refreshed exactly when the staged row differs from the
stored one (otherwise no UPDATE is emitted and `onupdate` never
fires). -/
def update_user (db_user : User) (user_in : UserUpdate) (salt now : Nat) :
    User × Option String :=
  let u := user_in.appliedRow db_user salt
  (if u = db_user then u else { u with updated_at := now }, user_in.role)

/-! ## JWT model (`python-jose`, as used in `app/main.py`) -/

/-- The payload `jwt.encode` signs for this service:
`{sub, user_id, email, role, exp, type}`, each identity field optional
(`payload.get` returns `None` when absent). -/
structure JwtPayload where
  sub : Option String
  user_id : Option String
  email : Option String
  role : Option String
  exp : Nat
  kind : String
deriving DecidableEq, Repr

/-- A compact signed token: the payload plus the secret it was signed
with (an idealized unforgeable MAC). -/
structure Jwt where
  payload : JwtPayload
  signedWith : String
deriving DecidableEq, Repr

/-- Errors out of `jwt.decode` (all subclasses of `JWTError`). -/
inductive JwtError where
  | signatureInvalid
  | expiredSignature
deriving DecidableEq, Repr

/-- `jwt.encode(claims, secret, algorithm)`. -/
def jwtEncode (p : JwtPayload) (secret : String) : Jwt :=
  ⟨p, secret⟩

/-- `jwt.decode(token, secret, algorithms)` at instant `now`: checks the
signature, then raises `ExpiredSignatureError` when `exp < now`
(python-jose `_validate_exp` with zero leeway). -/
def jwtDecode (t : Jwt) (secret : String) (now : Nat) :
    Except JwtError JwtPayload :=
  if t.signedWith ≠ secret then .error .signatureInvalid
  else if t.payload.exp < now then .error .expiredSignature
  else .ok t.payload

/-- `settings.SECRET_KEY` (`app/core/config.py`, checked-in default). -/
def SECRET_KEY : String :=
  "c3ab8ff13720e8ad9047dd39466b3c8974e592c2fa383d4a3960714caef0c4f2"

/-- The identity fields callers put into the `data` dict handed to the
token constructors. -/
structure TokenInput where
  sub : Option String
  user_id : Option String
  email : Option String
  role : Option String
deriving DecidableEq, Repr

/-- `create_access_token(data, expires_delta)` at instant `now`: expiry
is `now` plus the supplied delta or the 24-hour default, the payload
gains `type = "access"`, and the pair (token, expiry) is returned. -/
def create_access_token (data : TokenInput) (expires_delta : Option Nat)
    (now : Nat) : Jwt × Nat :=
  let expire := now + expires_delta.getD (24 * 3600)
  (jwtEncode ⟨data.sub, data.user_id, data.email, data.role, expire, "access"⟩
      SECRET_KEY,
    expire)

/-- `create_refresh_token(data)` at instant `now`: fixed 30-day ttl and
`type = "refresh"`. -/
def create_refresh_token (data : TokenInput) (now : Nat) : Jwt × Nat :=
  let expire := now + 30 * 86400
  (jwtEncode ⟨data.sub, data.user_id, data.email, data.role, expire, "refresh"⟩
      SECRET_KEY,
    expire)

/-- The token kinds of the codec interface. -/
inductive TokenKind where
  | access
  | refresh
deriving DecidableEq, Repr

/-- The codec interface `issue(claims, kind, ttl)` of the design: it
dispatches to the two constructors of `app/main.py`.  An access token
takes the supplied ttl as `expires_delta`; the refresh constructor has
no ttl parameter (fixed 30 days). -/
def issueToken (claims : TokenInput) (kind : TokenKind) (ttl : Nat)
    (now : Nat) : Jwt × Nat :=
  match kind with
  | .access => create_access_token claims (some ttl) now
  | .refresh => create_refresh_token claims now

/-- The `TokenData` pydantic model returned by `verify_token`. -/
structure TokenData where
  username : Option String
  user_id : Option String
  email : Option String
  role : Option String
deriving DecidableEq, Repr

/-- `verify_token(token)` at instant `now`: decode (signature + expiry),
require a `sub` claim, and package the identity claims.  The token's
`type` claim is never inspected. -/
def verify_token (t : Jwt) (now : Nat) : Except HttpError TokenData :=
  match jwtDecode t SECRET_KEY now with
  | .error _ => .error ⟨401, "Invalid authentication credentials"⟩
  | .ok payload =>
      match payload.sub with
      | none => .error ⟨401, "Invalid authentication credentials"⟩
      | some u => .ok ⟨some u, payload.user_id, payload.email, payload.role⟩

/-- `get_current_user(credentials, db)`: verify the bearer token, load
the live row by the token's subject, reject a missing user with 401 and
an inactive user with 400. -/
def get_current_user (db : Db) (t : Jwt) (now : Nat) :
    Except HttpError User :=
  match verify_token t now with
  | .error e => .error e
  | .ok token_data =>
      match token_data.username with
      | none => .error ⟨401, "User not found"⟩
      | some uname =>
          match get_user_by_username db uname with
          | none => .error ⟨401, "User not found"⟩
          | some user =>
              if !user.is_active then .error ⟨400, "Inactive user"⟩
              else .ok user

/-! ## Request / response models and endpoints (`app/main.py`) -/

/-- `LoginRequest`. -/
structure LoginRequest where
  username : String
  password : String
deriving DecidableEq, Repr

/-- `RegisterRequest`; `role` is the value after pydantic has applied
the `"user"` default for an absent field. -/
structure RegisterRequest where
  username : String
  email : String
  password : String
  role : String
deriving DecidableEq, Repr

/-- `UserCreate` payload (validation constraints modelled by
`UserCreate.Valid`). -/
structure UserCreate where
  email : String
  username : String
  password : String
  role : String
deriving DecidableEq, Repr

/-- Pydantic constraints on `UserCreate`: username 3–50 characters,
password at least 8. -/
def UserCreate.Valid (c : UserCreate) : Prop :=
  3 ≤ c.username.length ∧ c.username.length ≤ 50 ∧ 8 ≤ c.password.length

instance (c : UserCreate) : Decidable c.Valid := by
  unfold UserCreate.Valid; infer_instance

/-- `create_user(db, user_in)` (`crud_user.py`): hashes the password
and then calls `User(email=…, username=…, hashed_password=…, role=…,
is_active=True)`.  The declarative model has no `role` column and
SQLAlchemy's constructor raises `TypeError` on the unmapped keyword, so
the call always raises before any row is inserted: this path never
creates a user. -/
def create_user (db : Db) (user_in : UserCreate) :
    Except PyException (User × Db) :=
  .error .typeError

/-- `AuthResponse`: the token bundle the endpoints declare as their
response model.  In this variant no code path ever constructs it — the
role read crashes first. -/
structure AuthResponse where
  token : Jwt
  refresh_token : Jwt
  expires_at : Nat
  user_id : String
  username : String
  email : String
  role : String
  permissions : List String
deriving DecidableEq, Repr

/-- `POST /api/v1/auth/register`: email-uniqueness probe, then
username-uniqueness probe, then the 8-character password check, then
`UserCreate` validation (an out-of-range username raises an uncaught
pydantic `ValidationError` → 500), then `create_user` inside `try`: its
`TypeError` is caught and mapped to 500 "Failed to create user" (the
source detail also appends `str(e)`).  No registration ever succeeds in
this variant. -/
def register (db : Db) (req : RegisterRequest) :
    Except HttpError AuthResponse :=
  match get_user_by_email db req.email with
  | some _ => .error ⟨400, "Email already registered"⟩
  | none =>
  match get_user_by_username db req.username with
  | some _ => .error ⟨400, "Username already taken"⟩
  | none =>
  if req.password.length < 8 then
    .error ⟨400, "Password must be at least 8 characters long"⟩
  else
    let user_create : UserCreate :=
      ⟨req.email, req.username, req.password, req.role⟩
    if user_create.Valid then
      match create_user db user_create with
      | .error _ => .error ⟨500, "Failed to create user"⟩
      | .ok _ =>
          -- unreachable: were creation to return, the token build would
          -- read `user.role` and the AttributeError would map to a 500
          .error ⟨500, "Internal Server Error"⟩
    else .error ⟨500, "Internal Server Error"⟩

/-- `POST /api/v1/auth/login`: authenticate (missing user, inactive
user and failed verification all yield `None`), 401 on `None`; the
subsequent `is_active` branch is unreachable but embedded faithfully.
The success path builds the token data dict with `"role": user.role`;
the loaded row has no `role` attribute, so the uncaught
`AttributeError` maps to a 500 — a correct login never returns tokens
in this variant.  (`now` is the request instant the unreachable token
issuance would use.) -/
def login (db : Db) (req : LoginRequest) (now : Nat) :
    Except HttpError AuthResponse :=
  match authenticate_user db req.username req.password with
  | .error _ => .error ⟨500, "Internal Server Error"⟩
  | .ok none =>
      .error ⟨401, "Invalid username or password"⟩
  | .ok (some user) =>
      if !user.is_active then .error ⟨400, "User account is disabled"⟩
      else .error ⟨500, "Internal Server Error"⟩

/-- `POST /api/v1/auth/refresh`: decode (signature + expiry), require a
subject and `type == "refresh"`, require the subject's user to exist
and be active — then the access-token build reads `user.role`.  The
loaded row has no such attribute; the `AttributeError` is not a
`JWTError`, escapes the handler, and maps to a 500: the endpoint never
issues a token, and exactly the valid-token/active-user inputs fail
with 500 while the other failures are 401. -/
def refresh_token (db : Db) (rt : Jwt) (now : Nat) :
    Except HttpError AuthResponse :=
  match jwtDecode rt SECRET_KEY now with
  | .error _ => .error ⟨401, "Invalid refresh token"⟩
  | .ok payload =>
  match payload.sub with
  | none => .error ⟨401, "Invalid refresh token"⟩
  | some username =>
  if payload.kind ≠ "refresh" then .error ⟨401, "Invalid refresh token"⟩
  else
    match get_user_by_username db username with
    | none => .error ⟨401, "User not found or inactive"⟩
    | some user =>
        if !user.is_active then .error ⟨401, "User not found or inactive"⟩
        else .error ⟨500, "Internal Server Error"⟩

/-- The `UserProfile` response model. -/
structure UserProfile where
  id : String
  username : String
  email : String
  role : String
  is_active : Bool
  created_at : Nat
  updated_at : Nat
deriving DecidableEq, Repr

/-- `PUT /api/v1/auth/profile`: uniqueness probes only for a supplied,
non-empty, actually-changing email or username (excluding the
requester's own row), then `update_user` inside `try`.  The
`UserProfile` response reads `updated_user.role`, which is the
transient attribute `setattr` created only when `role` was supplied;
otherwise the `AttributeError` is caught by the generic handler and
mapped to 500 "Failed to update profile" (the source detail also
appends `str(e)`).  No authorization condition beyond the authenticated
`current_user` is evaluated. -/
def update_user_profile (db : Db) (current_user : User)
    (user_update : UserUpdate) (salt now : Nat) :
    Except HttpError UserProfile :=
  let emailConflict : Bool :=
    match user_update.email with
    | some e =>
        if e = "" || e = current_user.email then false
        else
          match get_user_by_email db e with
          | some existing => existing.id != current_user.id
          | none => false
    | none => false
  if emailConflict then .error ⟨400, "Email already registered"⟩
  else
    let usernameConflict : Bool :=
      match user_update.username with
      | some n =>
          if n = "" || n = current_user.username then false
          else
            match get_user_by_username db n with
            | some existing => existing.id != current_user.id
            | none => false
      | none => false
    if usernameConflict then .error ⟨400, "Username already taken"⟩
    else
      match update_user current_user user_update salt now with
      | (u, some roleAttr) =>
          .ok ⟨u.id, u.username, u.email, roleAttr, u.is_active,
            u.created_at, u.updated_at⟩
      | (_, none) => .error ⟨500, "Failed to update profile"⟩

/-- `PasswordChangeRequest`. -/
structure PasswordChangeRequest where
  current_password : String
  new_password : String
deriving DecidableEq, Repr

/-- `POST /api/v1/auth/change-password`: verify the current password
against the stored hash (400 on mismatch), enforce the 8-character
minimum on the new password, then store its hash and bump
`updated_at`. -/
def change_password (current_user : User)
    (password_data : PasswordChangeRequest) (salt now : Nat) :
    Except HttpError User :=
  match verify_password password_data.current_password
      current_user.hashed_password with
  | .error _ => .error ⟨500, "Internal Server Error"⟩
  | .ok false => .error ⟨400, "Current password is incorrect"⟩
  | .ok true =>
      if password_data.new_password.length < 8 then
        .error ⟨400, "New password must be at least 8 characters long"⟩
      else
        .ok { current_user with
                hashed_password :=
                  get_password_hash password_data.new_password salt
                updated_at := now }

end MainApp

namespace SimpleAuth

/-! ## `simple_auth.py`

This variant manipulates token *strings* (it truncates and concatenates
them), so its JWT codec is modelled at the character level.  A Python
string is a `List Char`.  The compact serialization is
`header ++ "." ++ payload ++ "." ++ signature` where the HS256 header
segment is the constant base64url string python-jose emits, the payload
segment is an executable serialization of the claim set with `'.'`
escaped out (base64url output contains no dots), and the signature
models a deterministic MAC over the signing input. -/

/-- A Python string. -/
abbrev PyStr := List Char

/-- The base64url-encoded HS256 JOSE header
`{"alg":"HS256","typ":"JWT"}` — constant for every token this service
signs. -/
def headerB64 : PyStr :=
  "eyJhbGciOiJIUzI1NiIsInR5cCI6IkpXVCJ9".data

/-- Escape one character so that segments are dot-free (base64url
alphabets contain no `.`). -/
def escapeChar (c : Char) : PyStr :=
  if c = '.' then ['~', 'd'] else if c = '~' then ['~', 't'] else [c]

/-- Dot-free encoding of arbitrary character data. -/
def escapeDots (l : PyStr) : PyStr :=
  (l.map escapeChar).flatten

/-- Inverse of `escapeDots`. -/
def unescapeDots : PyStr → PyStr
  | [] => []
  | '~' :: 'd' :: rest => '.' :: unescapeDots rest
  | '~' :: 't' :: rest => '~' :: unescapeDots rest
  | c :: rest => c :: unescapeDots rest

/-- Decimal digits of a natural. -/
def natChars (n : Nat) : PyStr :=
  (Nat.repr n).data

/-- Parse a leading run of decimal digits. -/
def parseNat (l : PyStr) : Option (Nat × PyStr) :=
  let ds := l.takeWhile (fun c => c.isDigit)
  if ds.isEmpty then none
  else
    some (ds.foldl (fun acc c => 10 * acc + (c.toNat - '0'.toNat)) 0,
      l.drop ds.length)

/-- Length-prefixed encoding of an optional string field of the claim
set. -/
def encOptStr : Option String → PyStr
  | none => ['N']
  | some s => 'S' :: natChars s.length ++ ':' :: s.data

/-- Parse one `encOptStr` field. -/
def parseOptStr : PyStr → Option (Option String × PyStr)
  | 'N' :: rest => some (none, rest)
  | 'S' :: rest =>
      match parseNat rest with
      | some (n, r1) =>
          match r1 with
          | ':' :: r2 =>
              if n ≤ r2.length then
                some (some (String.mk (r2.take n)), r2.drop n)
              else none
          | _ => none
      | none => none
  | _ => none

/-- The claim set `jwt.encode` receives here: the `data` dict fields the
callers pass (`sub`, `user_id`, `role`) plus the `exp` this service
adds.  No `type` claim exists in this variant. -/
structure SimplePayload where
  sub : Option String
  user_id : Option String
  role : Option String
  exp : Nat
deriving DecidableEq, Repr

/-- Serialize a claim set (before dot-escaping). -/
def serializePayload (p : SimplePayload) : PyStr :=
  encOptStr p.sub ++ encOptStr p.user_id ++ encOptStr p.role ++
    natChars p.exp

/-- Parse a serialized claim set. -/
def decodePayload (l : PyStr) : Option SimplePayload :=
  match parseOptStr l with
  | some (sub, r1) =>
      match parseOptStr r1 with
      | some (uid, r2) =>
          match parseOptStr r2 with
          | some (role, r3) =>
              match parseNat r3 with
              | some (e, r4) =>
                  if r4.isEmpty then some ⟨sub, uid, role, e⟩ else none
              | none => none
          | none => none
      | none => none
  | none => none

/-- The payload segment of the compact serialization. -/
def payloadSegment (p : SimplePayload) : PyStr :=
  escapeDots (serializePayload p)

/-- The signature segment: a deterministic MAC of the signing input
under the secret, rendered dot-free. -/
def signSegment (secret : String) (signingInput : PyStr) : PyStr :=
  escapeDots (secret.data ++ signingInput)

/-- `jwt.encode(payload, secret, algorithm="HS256")` as a string. -/
def jwtEncodeS (p : SimplePayload) (secret : String) : PyStr :=
  let signingInput := headerB64 ++ '.' :: payloadSegment p
  signingInput ++ '.' :: signSegment secret signingInput

/-- Split a string at every `'.'`. -/
def splitOnDot (l : PyStr) : List PyStr :=
  match l with
  | [] => [[]]
  | c :: rest =>
      let r := splitOnDot rest
      if c = '.' then [] :: r
      else
        match r with
        | s :: ss => (c :: s) :: ss
        | [] => [[c]]

/-- Errors out of `jwt.decode` on a string (all `JWTError`s). -/
inductive JwtSError where
  | malformedToken
  | signatureInvalid
  | expiredSignature
deriving DecidableEq, Repr

/-- `jwt.decode(token, secret, algorithms=["HS256"])` at instant `now`:
the string must split into exactly the three segments, the header must
be the HS256 header, the signature must match, the payload must parse,
and the token must not be expired. -/
def jwtDecodeS (s : PyStr) (secret : String) (now : Nat) :
    Except JwtSError SimplePayload :=
  match splitOnDot s with
  | [h, pl, sg] =>
      if h ≠ headerB64 then .error .malformedToken
      else if sg ≠ signSegment secret (h ++ '.' :: pl) then
        .error .signatureInvalid
      else
        match decodePayload (unescapeDots pl) with
        | none => .error .malformedToken
        | some payload =>
            if payload.exp < now then .error .expiredSignature
            else .ok payload
  | _ => .error .malformedToken

/-- `SECRET_KEY` (checked-in constant of `simple_auth.py`). -/
def SECRET_KEY : String :=
  "dante_super_secret_jwt_key_2024_production_ready"

/-- `ACCESS_TOKEN_EXPIRE_HOURS = 24`. -/
def ACCESS_TOKEN_EXPIRE_HOURS : Nat := 24

/-- `verify_password` — the same bare passlib call as the main app. -/
def verify_password (plain_password : String) (hashed_password : Digest) :
    Except HasherError Bool :=
  pwdContextVerify plain_password hashed_password

/-- `get_password_hash`. -/
def get_password_hash (password : String) (salt : Nat) : Digest :=
  pwdContextHash password salt

/-- The identity fields the two callers put into the `data` dict. -/
structure TokenInput where
  sub : Option String
  user_id : Option String
  role : Option String
deriving DecidableEq, Repr

/-- `create_access_token(data)` at instant `now`: 24-hour expiry, no
`type` claim, returns (encoded string, expiry). -/
def create_access_token (data : TokenInput) (now : Nat) : PyStr × Nat :=
  let expire := now + ACCESS_TOKEN_EXPIRE_HOURS * 3600
  (jwtEncodeS ⟨data.sub, data.user_id, data.role, expire⟩ SECRET_KEY,
    expire)

/-- `verify_token(token)`: decode, then require a `sub` claim; every
failure is the same 401. -/
def verify_token (s : PyStr) (now : Nat) : Except HttpError SimplePayload :=
  match jwtDecodeS s SECRET_KEY now with
  | .error _ => .error ⟨401, "Invalid token"⟩
  | .ok payload =>
      match payload.sub with
      | none => .error ⟨401, "Invalid token"⟩
      | some _ => .ok payload

/-- A row of this variant's `users` table. -/
structure User where
  id : String
  email : String
  username : String
  hashed_password : Digest
  role : String
  is_active : Bool
  created_at : Nat
  updated_at : Nat
deriving DecidableEq, Repr

/-- The table state. -/
abbrev Db := List User

/-- `get_current_user`: verify the token, then load the row by the
subject.  No `is_active` check exists in this variant. -/
def get_current_user (db : Db) (s : PyStr) (now : Nat) :
    Except HttpError User :=
  match verify_token s now with
  | .error e => .error e
  | .ok payload =>
      match payload.sub with
      | none => .error ⟨401, "User not found"⟩
      | some uname =>
          match db.find? (fun u => u.username = uname) with
          | none => .error ⟨401, "User not found"⟩
          | some user => .ok user

/-- `RegisterRequest` of this variant (no constraints at all on the
password). -/
structure RegisterRequest where
  username : String
  email : String
  password : String
deriving DecidableEq, Repr

/-- `LoginRequest`. -/
structure LoginRequest where
  username : String
  password : String
deriving DecidableEq, Repr

/-- The `AuthResponse` of this variant; both token fields are plain
strings. -/
structure AuthResponse where
  token : PyStr
  refresh_token : PyStr
  expires_at : Nat
  user_id : String
  username : String
  email : String
  role : String
  permissions : List String
deriving DecidableEq, Repr

/-- The refresh-token string both endpoints fabricate:
`f"refresh_{access_token[:20]}"`. -/
def fabricatedRefresh (access_token : PyStr) : PyStr :=
  "refresh_".data ++ access_token.take 20

/-- `POST /api/v1/auth/register`: one combined uniqueness probe
(`email == .. OR username == ..`, first match decides the message); no
password-length check of any kind; the row is created with role
`"user"` and `is_active=True`; the response carries a real access token
and the fabricated refresh string. -/
def register (db : Db) (req : RegisterRequest) (newId : String)
    (salt now : Nat) : Except HttpError (AuthResponse × Db) :=
  match db.find? (fun u => u.email = req.email || u.username = req.username)
      with
  | some existing =>
      if existing.email = req.email then
        .error ⟨400, "Email already registered"⟩
      else .error ⟨400, "Username already taken"⟩
  | none =>
      let user : User :=
        { id := newId
          email := req.email
          username := req.username
          hashed_password := get_password_hash req.password salt
          role := "user"
          is_active := true
          created_at := now
          updated_at := now }
      let a := create_access_token
        ⟨some user.username, some user.id, some user.role⟩ now
      .ok ({ token := a.1
             refresh_token := fabricatedRefresh a.1
             expires_at := a.2
             user_id := user.id
             username := user.username
             email := user.email
             role := user.role
             permissions := [] },
        db ++ [user])

/-- `POST /api/v1/auth/login`: missing user and failed verification
share one 401; an inactive user with a correct password gets a distinct
400 "Inactive user". -/
def login (db : Db) (req : LoginRequest) (now : Nat) :
    Except HttpError AuthResponse :=
  match db.find? (fun u => u.username = req.username) with
  | none => .error ⟨401, "Invalid username or password"⟩
  | some user =>
      match verify_password req.password user.hashed_password with
      | .error _ => .error ⟨500, "Internal Server Error"⟩
      | .ok false => .error ⟨401, "Invalid username or password"⟩
      | .ok true =>
          if !user.is_active then .error ⟨400, "Inactive user"⟩
          else
            let a := create_access_token
              ⟨some user.username, some user.id, some user.role⟩ now
            .ok { token := a.1
                  refresh_token := fabricatedRefresh a.1
                  expires_at := a.2
                  user_id := user.id
                  username := user.username
                  email := user.email
                  role := user.role
                  permissions := [] }

/-- Every route `simple_auth.py` registers, as (method, path). -/
def routes : List (String × String) :=
  [("POST", "/api/v1/auth/register"),
   ("POST", "/api/v1/auth/login"),
   ("GET", "/api/v1/auth/profile"),
   ("POST", "/api/v1/auth/logout"),
   ("GET", "/health"),
   ("GET", "/")]

end SimpleAuth

/-! # Theorems -/

/-- C5 (counterexample): a malformed digest does not make `verify`
return false — passlib's `UnknownHashError` escapes `verify_password`
uncaught. -/
theorem c5_malformed_digest_raises :
    MainApp.verify_password "x" (Digest.malformed "nothash") =
        .error .unknownHash ∧
    MainApp.verify_password "x" (Digest.malformed "nothash") ≠
        .ok false := by
  decide

/-- C5 (amended): for a well-formed digest, `verify_password` returns
true iff the plaintext, hashed with the salt embedded in the digest,
equals the digest; for a malformed digest it raises `UnknownHashError`
past the hasher boundary instead of returning false. -/
theorem verify_password_spec (p : String) (d : Digest) :
    (∀ salt key, d = Digest.bcrypt salt key →
        (MainApp.verify_password p d = .ok true ↔
          pwdContextHash p salt = d)) ∧
    (∀ raw, d = Digest.malformed raw →
        MainApp.verify_password p d = .error .unknownHash) := by
  constructor
  · rintro salt key rfl
    simp [MainApp.verify_password, pwdContextVerify]
  · rintro raw rfl
    rfl

/-- C5 witness: the amended characterization evaluated at concrete
digests. -/
theorem verify_password_spec_witness :
    MainApp.verify_password "password123" (Digest.bcrypt 7 "password123") =
        .ok true ∧
    MainApp.verify_password "password123" (Digest.malformed "zzz") =
        .error .unknownHash := by
  refine ⟨?_, ?_⟩
  · exact ((verify_password_spec "password123"
        (Digest.bcrypt 7 "password123")).1 7 "password123" rfl).mpr rfl
  · exact (verify_password_spec "password123"
        (Digest.malformed "zzz")).2 "zzz" rfl

/-- C4: issuing a token over a claims set (a claims set carries a
subject) and verifying it immediately returns the input identity
claims, for either kind and any ttl; verifying the same token at any
instant after its expiry returns an error. -/
theorem token_roundtrip_and_expiry (c : MainApp.TokenInput)
    (kind : MainApp.TokenKind) (ttl now : Nat) (u : String)
    (hsub : c.sub = some u) :
    MainApp.verify_token (MainApp.issueToken c kind ttl now).1 now =
        .ok ⟨c.sub, c.user_id, c.email, c.role⟩ ∧
    ∀ t, (MainApp.issueToken c kind ttl now).2 < t →
      MainApp.verify_token (MainApp.issueToken c kind ttl now).1 t =
        .error ⟨401, "Invalid authentication credentials"⟩ := by
  constructor
  · cases kind <;>
      simp [MainApp.issueToken, MainApp.create_access_token,
        MainApp.create_refresh_token, MainApp.verify_token,
        MainApp.jwtDecode, MainApp.jwtEncode, hsub]
  · intro t ht
    cases kind <;>
      simp_all [MainApp.issueToken, MainApp.create_access_token,
        MainApp.create_refresh_token, MainApp.verify_token,
        MainApp.jwtDecode, MainApp.jwtEncode]

/-- C4 witness: a concrete access token round-trips at issuance time
and is rejected past its expiry. -/
theorem token_roundtrip_and_expiry_witness :
    MainApp.verify_token
        (MainApp.issueToken
          ⟨some "alice", some "u1", some "a@x.com", some "user"⟩
          .access 60 100).1 100 =
      .ok ⟨some "alice", some "u1", some "a@x.com", some "user"⟩ ∧
    MainApp.verify_token
        (MainApp.issueToken
          ⟨some "alice", some "u1", some "a@x.com", some "user"⟩
          .access 60 100).1 200 =
      .error ⟨401, "Invalid authentication credentials"⟩ := by
  have h := token_roundtrip_and_expiry
    ⟨some "alice", some "u1", some "a@x.com", some "user"⟩
    .access 60 100 "alice" rfl
  exact ⟨h.1, h.2 200 (by decide)⟩

/-- C1 (counterexample): a token whose `type` claim is `"refresh"` is
accepted by the Authorize dependency: `get_current_user` never inspects
the kind claim, so a refresh token for an existing active user passes
where an access token is required. -/
theorem c1_refresh_kind_accepted :
    (MainApp.create_refresh_token
        ⟨some "alice", some "u1", none, none⟩ 0).1.payload.kind =
      "refresh" ∧
    MainApp.get_current_user
        [⟨"u1", "a@x.com", "alice", Digest.bcrypt 0 "password123", true,
          false, 0, 0, none⟩]
        (MainApp.create_refresh_token
          ⟨some "alice", some "u1", none, none⟩ 0).1 5 =
      .ok ⟨"u1", "a@x.com", "alice", Digest.bcrypt 0 "password123", true,
        false, 0, 0, none⟩ := by
  constructor
  · rfl
  · decide

/-- C1 (amended): in the main service, `get_current_user` accepts a
bearer token iff the signature and expiry verify, a subject claim is
present, and the live user looked up by the subject exists and is
active (an inactive user is rejected); in the `simple_auth` variant
the condition is the same minus the is_active check — an inactive
user's token is accepted there.  In neither variant is the kind claim
part of the condition, so a refresh-kind token is accepted where an
access token is required. -/
theorem get_current_user_characterization :
    (∀ (db : MainApp.Db) (t : MainApp.Jwt) (now : Nat)
        (user : MainApp.User),
      MainApp.get_current_user db t now = .ok user ↔
        (t.signedWith = MainApp.SECRET_KEY ∧ now ≤ t.payload.exp ∧
          ∃ u, t.payload.sub = some u ∧
            MainApp.get_user_by_username db u = some user ∧
            user.is_active = true)) ∧
    (∀ (db : SimpleAuth.Db) (s : SimpleAuth.PyStr) (now : Nat)
        (user : SimpleAuth.User),
      SimpleAuth.get_current_user db s now = .ok user ↔
        ∃ p u, SimpleAuth.jwtDecodeS s SimpleAuth.SECRET_KEY now =
            .ok p ∧
          p.sub = some u ∧
          db.find? (fun x => x.username = u) = some user) := by
  constructor
  · intro db t now user
    by_cases hs : t.signedWith = MainApp.SECRET_KEY
    · by_cases he : t.payload.exp < now
      · simp only [MainApp.get_current_user, MainApp.verify_token,
          MainApp.jwtDecode, hs, he]
        simp only [ne_eq, not_true_eq_false, if_false, if_true,
          reduceIte]
        constructor
        · intro h; cases h
        · rintro ⟨-, hle, -⟩; omega
      · cases hsub : t.payload.sub with
        | none =>
            simp only [MainApp.get_current_user, MainApp.verify_token,
              MainApp.jwtDecode, hs, he, hsub]
            simp [hs, he, hsub]
        | some u =>
            cases hfind : MainApp.get_user_by_username db u with
            | none =>
                simp [MainApp.get_current_user, MainApp.verify_token,
                  MainApp.jwtDecode, hs, he, hsub, hfind]
            | some w =>
                cases ha : w.is_active with
                | false =>
                    simp [MainApp.get_current_user, MainApp.verify_token,
                      MainApp.jwtDecode, hs, he, hsub, hfind, ha]
                    intro hw
                    rintro rfl
                    simp_all
                | true =>
                    simp [MainApp.get_current_user, MainApp.verify_token,
                      MainApp.jwtDecode, hs, he, hsub, hfind, ha]
                    constructor
                    · rintro rfl
                      exact ⟨by omega, rfl, ha⟩
                    · rintro ⟨-, hw, -⟩
                      cases hw; rfl
    · simp [MainApp.get_current_user, MainApp.verify_token,
        MainApp.jwtDecode, hs]
  · intro db s now user
    cases hd : SimpleAuth.jwtDecodeS s SimpleAuth.SECRET_KEY now with
    | error e =>
        simp [SimpleAuth.get_current_user, SimpleAuth.verify_token, hd]
    | ok p =>
        cases hsub : p.sub with
        | none =>
            simp [SimpleAuth.get_current_user, SimpleAuth.verify_token,
              hd, hsub]
        | some u =>
            cases hfind : db.find? (fun x => x.username = u) with
            | none =>
                simp [SimpleAuth.get_current_user,
                  SimpleAuth.verify_token, hd, hsub, hfind]
            | some w =>
                simp [SimpleAuth.get_current_user,
                  SimpleAuth.verify_token, hd, hsub, hfind]

/-- C1 witness: the characterizations instantiated concretely — in
particular, an inactive user's token is accepted by the `simple_auth`
variant. -/
theorem get_current_user_characterization_witness :
    MainApp.get_current_user
        [⟨"u1", "a@x.com", "alice", Digest.bcrypt 0 "password123", true,
          false, 0, 0, none⟩]
        (MainApp.create_access_token
          ⟨some "alice", some "u1", some "a@x.com", some "user"⟩
          none 0).1 5 =
      .ok ⟨"u1", "a@x.com", "alice", Digest.bcrypt 0 "password123", true,
        false, 0, 0, none⟩ ∧
    SimpleAuth.get_current_user
        [⟨"u2", "b@x.com", "bob", Digest.bcrypt 0 "password123", "user",
          false, 0, 0⟩]
        (SimpleAuth.jwtEncodeS ⟨some "bob", some "u2", some "user", 100⟩
          SimpleAuth.SECRET_KEY) 0 =
      .ok ⟨"u2", "b@x.com", "bob", Digest.bcrypt 0 "password123", "user",
        false, 0, 0⟩ := by
  constructor
  · exact (get_current_user_characterization.1 _ _ _ _).mpr
      ⟨rfl, by decide, "alice", rfl, rfl, rfl⟩
  · exact (get_current_user_characterization.2 _ _ _ _).mpr
      ⟨⟨some "bob", some "u2", some "user", 100⟩, "bob", by decide, rfl,
        rfl⟩

/-- C2 (counterexample): in the `simple_auth` variant an inactive
account with the correct password fails with 400 "Inactive user", while
a wrong password fails with 401 "Invalid username or password" — the
two outcomes are distinguishable, contrary to the claim that all three
failure causes collapse to one outcome. -/
theorem c2_simple_inactive_distinguishable :
    SimpleAuth.login
        [⟨"u1", "b@x.com", "bob", Digest.bcrypt 0 "password123", "user",
          false, 0, 0⟩]
        ⟨"bob", "password123"⟩ 0 = .error ⟨400, "Inactive user"⟩ ∧
    SimpleAuth.login
        [⟨"u1", "b@x.com", "bob", Digest.bcrypt 0 "password123", "user",
          false, 0, 0⟩]
        ⟨"bob", "wrongpass"⟩ 0 =
      .error ⟨401, "Invalid username or password"⟩ ∧
    (HttpError.mk 400 "Inactive user") ≠
      ⟨401, "Invalid username or password"⟩ := by
  decide

/-- C2 (amended): in the main service, username-not-found, wrong
password for an active user, and inactive account all produce the same
401 "Invalid username or password"; in `simple_auth`, username-not-found
and wrong password are indistinguishable (same 401), but the inactive
case is a distinct 400. -/
theorem login_failure_indistinguishability :
    (∀ (db : MainApp.Db) (u p : String) (now : Nat),
      ((MainApp.get_user_by_username db u = none) ∨
       (∃ usr, MainApp.get_user_by_username db u = some usr ∧
          usr.is_active = true ∧
          MainApp.verify_password p usr.hashed_password = .ok false) ∨
       (∃ usr, MainApp.get_user_by_username db u = some usr ∧
          usr.is_active = false)) →
      MainApp.login db ⟨u, p⟩ now =
        .error ⟨401, "Invalid username or password"⟩) ∧
    (∀ (db : SimpleAuth.Db) (u p : String) (now : Nat),
      ((db.find? (fun x => x.username = u) = none) ∨
       (∃ usr, db.find? (fun x => x.username = u) = some usr ∧
          SimpleAuth.verify_password p usr.hashed_password = .ok false)) →
      SimpleAuth.login db ⟨u, p⟩ now =
        .error ⟨401, "Invalid username or password"⟩) := by
  constructor
  · rintro db u p now (hnone | ⟨usr, hfind, hact, hver⟩ |
      ⟨usr, hfind, hact⟩)
    · simp [MainApp.login, MainApp.authenticate_user, hnone]
    · simp [MainApp.login, MainApp.authenticate_user, hfind, hact, hver]
    · simp [MainApp.login, MainApp.authenticate_user, hfind, hact]
  · rintro db u p now (hnone | ⟨usr, hfind, hver⟩)
    · simp [SimpleAuth.login, hnone]
    · simp [SimpleAuth.login, hfind, hver]

/-- C2 witness: a login for an unknown username fails with the generic
401. -/
theorem login_failure_indistinguishability_witness :
    MainApp.login [] ⟨"ghost", "pw"⟩ 0 =
      .error ⟨401, "Invalid username or password"⟩ :=
  login_failure_indistinguishability.1 [] "ghost" "pw" 0 (Or.inl rfl)

/-- C3 (counterexample): a role-only update leaves the stored record
completely unchanged — `role` is not a persisted column and the
`setattr` creates only a transient attribute — so supplying
role="admin" does not change the requester's stored role (there is no
stored role at all). -/
theorem c3_role_not_persisted :
    (MainApp.update_user
        ⟨"u1", "a@x.com", "alice", Digest.bcrypt 0 "password123", true,
          false, 3, 5, none⟩
        ⟨none, none, some "admin", none, none⟩ 0 9).1 =
      ⟨"u1", "a@x.com", "alice", Digest.bcrypt 0 "password123", true,
        false, 3, 5, none⟩ ∧
    (MainApp.update_user
        ⟨"u1", "a@x.com", "alice", Digest.bcrypt 0 "password123", true,
          false, 3, 5, none⟩
        ⟨none, none, some "admin", none, none⟩ 0 9).2 = some "admin" := by
  decide

/-- C3 (amended): profile update applies supplied mapped-column fields
for every authenticated user with no authorization check beyond the
valid token, and a supplied role (e.g. "admin") is echoed in the
response — but role is not persisted: a role-only update returns the
requested role while the stored record is unchanged; a supplied
is_active is a real column and is applied; and a request whose update
set lacks role always fails (the response reads the absent attribute
→ 500). -/
theorem profile_update_role_transient (db : MainApp.Db)
    (cur : MainApp.User) (r : String) (salt now : Nat) :
    (MainApp.update_user_profile db cur ⟨none, none, some r, none, none⟩
        salt now =
      .ok ⟨cur.id, cur.username, cur.email, r, cur.is_active,
        cur.created_at, cur.updated_at⟩) ∧
    ((MainApp.update_user cur ⟨none, none, some r, none, none⟩
        salt now).1 = cur) ∧
    (MainApp.update_user_profile db cur
        ⟨none, none, some r, some (!cur.is_active), none⟩ salt now =
      .ok ⟨cur.id, cur.username, cur.email, r, !cur.is_active,
        cur.created_at, now⟩) ∧
    (∀ upd : MainApp.UserUpdate, upd.role = none →
      ∀ res, ¬ MainApp.update_user_profile db cur upd salt now =
        .ok res) := by
  have happ : MainApp.UserUpdate.appliedRow
      ⟨none, none, some r, none, none⟩ cur salt = cur := rfl
  have hupd : MainApp.update_user cur ⟨none, none, some r, none, none⟩
      salt now = (cur, some r) := by
    simp [MainApp.update_user, happ]
  have happ2 : MainApp.UserUpdate.appliedRow
      ⟨none, none, some r, some (!cur.is_active), none⟩ cur salt =
      { cur with is_active := !cur.is_active } := rfl
  have hne2 : ¬ MainApp.UserUpdate.appliedRow
      ⟨none, none, some r, some (!cur.is_active), none⟩ cur salt = cur := by
    rw [happ2]
    intro h
    have hb := congrArg MainApp.User.is_active h
    simp at hb
  have hupd2 : MainApp.update_user cur
      ⟨none, none, some r, some (!cur.is_active), none⟩ salt now =
      ({ cur with is_active := !cur.is_active, updated_at := now },
        some r) := by
    simp [MainApp.update_user, happ2, hne2]
    intro h
    have hb := congrArg MainApp.User.is_active h
    simp at hb
  refine ⟨?_, ?_, ?_, ?_⟩
  · unfold MainApp.update_user_profile
    rw [hupd]
    rfl
  · rw [hupd]
  · unfold MainApp.update_user_profile
    rw [hupd2]
    rfl
  · intro upd hr res h
    obtain ⟨e, un, ro, ia, pw⟩ := upd
    cases hr
    unfold MainApp.update_user_profile at h
    simp only [MainApp.update_user] at h
    split at h
    · cases h
    · split at h
      · cases h
      · cases h

/-- C3 witness: a concrete role-only profile update echoes "admin" in
the response (with the stored record untouched). -/
theorem profile_update_role_transient_witness :
    MainApp.update_user_profile []
        ⟨"u1", "a@x.com", "alice", Digest.bcrypt 0 "password123", true,
          false, 3, 5, none⟩
        ⟨none, none, some "admin", none, none⟩ 0 9 =
      .ok ⟨"u1", "alice", "a@x.com", "admin", true, 3, 5⟩ :=
  (profile_update_role_transient []
    ⟨"u1", "a@x.com", "alice", Digest.bcrypt 0 "password123", true,
      false, 3, 5, none⟩ "admin" 0 9).1

/-- C6 (counterexample): `simple_auth.py`'s register performs no
password-length check — a 3-character password registers successfully —
while the main service's register can never succeed at all: a fully
valid registration returns 500 because `create_user` raises `TypeError`
on the unmapped `role` keyword. -/
theorem c6_register_counterexample :
    ("abc".length < 8 ∧
      (SimpleAuth.register [] ⟨"alice", "a@x.com", "abc"⟩ "id1" 0 0).isOk
        = true) ∧
    MainApp.register [] ⟨"alice", "a@x.com", "password123", "user"⟩ =
      .error ⟨500, "Failed to create user"⟩ := by
  decide

/-- C6 (amended): the main service's register rejects a password
shorter than 8 characters and rejects with 400 when the username or
the email is taken, but no registration ever succeeds there —
`create_user` always raises `TypeError` (the users model has no role
column) and every validated registration returns 500 "Failed to create
user"; only the `simple_auth` variant actually creates the user
(active by default) and returns an access token plus the fabricated
refresh string, and it does so with no password-length check. -/
theorem register_spec (db : MainApp.Db) (req : MainApp.RegisterRequest) :
    (req.password.length < 8 →
      ∃ e, MainApp.register db req = .error e ∧ e.status = 400) ∧
    ((∃ w, MainApp.get_user_by_email db req.email = some w) ∨
     (∃ w, MainApp.get_user_by_username db req.username = some w) →
      ∃ e, MainApp.register db req = .error e ∧ e.status = 400) ∧
    (∀ resp, MainApp.register db req ≠ .ok resp) ∧
    (MainApp.get_user_by_email db req.email = none →
     MainApp.get_user_by_username db req.username = none →
     8 ≤ req.password.length →
     3 ≤ req.username.length → req.username.length ≤ 50 →
      MainApp.register db req = .error ⟨500, "Failed to create user"⟩) ∧
    (∀ (sdb : SimpleAuth.Db) (sreq : SimpleAuth.RegisterRequest)
        (newId : String) (salt now : Nat),
      sdb.find? (fun x => x.email = sreq.email ||
        x.username = sreq.username) = none →
      SimpleAuth.register sdb sreq newId salt now =
        .ok ({ token := (SimpleAuth.create_access_token
                  ⟨some sreq.username, some newId, some "user"⟩ now).1
               refresh_token := SimpleAuth.fabricatedRefresh
                 (SimpleAuth.create_access_token
                   ⟨some sreq.username, some newId, some "user"⟩ now).1
               expires_at := (SimpleAuth.create_access_token
                 ⟨some sreq.username, some newId, some "user"⟩ now).2
               user_id := newId
               username := sreq.username
               email := sreq.email
               role := "user"
               permissions := [] },
          sdb ++ [⟨newId, sreq.email, sreq.username,
            SimpleAuth.get_password_hash sreq.password salt, "user",
            true, now, now⟩])) := by
  refine ⟨?_, ?_, ?_, ?_, ?_⟩
  · intro hlen
    cases he : MainApp.get_user_by_email db req.email with
    | some w =>
        exact ⟨⟨400, "Email already registered"⟩,
          by simp [MainApp.register, he], rfl⟩
    | none =>
        cases hu : MainApp.get_user_by_username db req.username with
        | some w =>
            exact ⟨⟨400, "Username already taken"⟩,
              by simp [MainApp.register, he, hu], rfl⟩
        | none =>
            exact ⟨⟨400, "Password must be at least 8 characters long"⟩,
              by simp [MainApp.register, he, hu, hlen], rfl⟩
  · rintro (⟨w, hw⟩ | ⟨w, hw⟩)
    · exact ⟨⟨400, "Email already registered"⟩,
        by simp [MainApp.register, hw], rfl⟩
    · cases he : MainApp.get_user_by_email db req.email with
      | some v =>
          exact ⟨⟨400, "Email already registered"⟩,
            by simp [MainApp.register, he], rfl⟩
      | none =>
          exact ⟨⟨400, "Username already taken"⟩,
            by simp [MainApp.register, he, hw], rfl⟩
  · intro resp h
    unfold MainApp.register at h
    simp only [MainApp.create_user] at h
    repeat' split at h
    all_goals cases h
  · intro he hu h8 h3 h50
    have hnl : ¬ req.password.length < 8 := by omega
    have hv : (MainApp.UserCreate.mk req.email req.username req.password
        req.role).Valid := ⟨h3, h50, h8⟩
    simp [MainApp.register, he, hu, hnl, hv, MainApp.create_user]
  · intro sdb sreq newId salt now hfind
    unfold SimpleAuth.register
    rw [hfind]

/-- C6 witness: a concrete fully valid main-service registration still
fails with the creation 500. -/
theorem register_spec_witness :
    MainApp.register [] ⟨"alice", "a@x.com", "password123", "user"⟩ =
      .error ⟨500, "Failed to create user"⟩ := by
  exact (register_spec []
    ⟨"alice", "a@x.com", "password123", "user"⟩).2.2.2.1
    rfl rfl (by decide) (by decide) (by decide)

/-- C7 (code evaluated at the failing input): a valid refresh token for
an existing active user does not yield a new access token — the
success path reads `user.role`, the users model has no role column,
and the uncaught `AttributeError` (not a `JWTError`) surfaces as a 500
— although the endpoint's own docstring and `response_model` promise
the token bundle the claim describes.  A wrong-kind (access) token
still fails 401 as claimed. -/
theorem refresh_role_crash :
    MainApp.refresh_token
        [⟨"u1", "a@x.com", "alice", Digest.bcrypt 0 "password123", true,
          false, 0, 0, none⟩]
        (MainApp.create_refresh_token
          ⟨some "alice", some "u1", none, none⟩ 0).1 5 =
      .error ⟨500, "Internal Server Error"⟩ ∧
    MainApp.refresh_token
        [⟨"u1", "a@x.com", "alice", Digest.bcrypt 0 "password123", true,
          false, 0, 0, none⟩]
        (MainApp.create_access_token
          ⟨some "alice", some "u1", none, none⟩ none 0).1 5 =
      .error ⟨401, "Invalid refresh token"⟩ := by
  decide

/-- C8 (counterexample): `updated_at` is not part of the supplied
update set yet changes across the directory's update when a mapped
column's value actually changes — the claim's "all other fields of the
record are unchanged" fails at this field. -/
theorem c8_updated_at_refreshed :
    (MainApp.update_user
        ⟨"u1", "a@x.com", "alice", Digest.bcrypt 0 "password123", true,
          false, 3, 5, none⟩
        ⟨some "new@x.com", none, none, none, none⟩ 0 9).1.updated_at =
      9 ∧
    (MainApp.User.mk "u1" "a@x.com" "alice"
        (Digest.bcrypt 0 "password123") true false 3 5 none).updated_at =
      5 ∧
    (9 : Nat) ≠ 5 := by
  decide

/-- C8 (amended): the directory's update changes only the supplied
mapped-column fields (every other field of the staged row keeps its
value); a supplied (schema-valid) password is re-hashed into
`hashed_password` and its plaintext discarded; a supplied `role` is
not a mapped column — it never affects the stored row and survives
only as the transient attribute; and `updated_at` is refreshed exactly
when some mapped column's value actually changes (SQLAlchemy emits no
UPDATE, hence fires no `onupdate`, otherwise). -/
theorem update_user_frame (u : MainApp.User) (upd : MainApp.UserUpdate)
    (salt now : Nat) (hv : upd.Valid) :
    ((MainApp.update_user u upd salt now).2 = upd.role) ∧
    ((MainApp.update_user u
        ⟨upd.email, upd.username, none, upd.is_active, upd.password⟩
        salt now).1 = (MainApp.update_user u upd salt now).1) ∧
    (upd.appliedRow u salt = u →
      (MainApp.update_user u upd salt now).1 = u) ∧
    (¬ upd.appliedRow u salt = u →
      (MainApp.update_user u upd salt now).1 =
        { upd.appliedRow u salt with updated_at := now }) ∧
    (upd.appliedRow u salt).id = u.id ∧
    (upd.appliedRow u salt).created_at = u.created_at ∧
    (upd.appliedRow u salt).updated_at = u.updated_at ∧
    (upd.appliedRow u salt).is_verified = u.is_verified ∧
    (upd.appliedRow u salt).last_login_at = u.last_login_at ∧
    (upd.email = none → (upd.appliedRow u salt).email = u.email) ∧
    (∀ e, upd.email = some e → (upd.appliedRow u salt).email = e) ∧
    (upd.username = none →
      (upd.appliedRow u salt).username = u.username) ∧
    (∀ n, upd.username = some n →
      (upd.appliedRow u salt).username = n) ∧
    (upd.is_active = none →
      (upd.appliedRow u salt).is_active = u.is_active) ∧
    (∀ b, upd.is_active = some b →
      (upd.appliedRow u salt).is_active = b) ∧
    (upd.password = none →
      (upd.appliedRow u salt).hashed_password = u.hashed_password) ∧
    (∀ p, upd.password = some p →
      (upd.appliedRow u salt).hashed_password =
        MainApp.get_password_hash p salt) := by
  have hpw : ∀ p, upd.password = some p → ¬ p = "" := by
    intro p hp hp0
    have := hv p hp
    rw [hp0] at this
    simp at this
  refine ⟨rfl, rfl, ?_, ?_, rfl, rfl, rfl, rfl, rfl, ?_, ?_, ?_, ?_, ?_,
    ?_, ?_, ?_⟩
  · intro h
    show (if upd.appliedRow u salt = u then upd.appliedRow u salt
      else { upd.appliedRow u salt with updated_at := now }) = u
    rw [if_pos h]
    exact h
  · intro h
    show (if upd.appliedRow u salt = u then upd.appliedRow u salt
      else { upd.appliedRow u salt with updated_at := now }) =
      { upd.appliedRow u salt with updated_at := now }
    rw [if_neg h]
  all_goals
    first
      | (intro x h;
         simp [MainApp.UserUpdate.appliedRow, h, hpw x h,
           MainApp.get_password_hash];
         done)
      | (intro x h; simp [MainApp.UserUpdate.appliedRow, h]; done)
      | (intro h; simp [MainApp.UserUpdate.appliedRow, h]; done)

/-- C8 witness: the frame law at concrete updates — a role-only update
leaves the stored row (updated_at included) untouched, while an email
change refreshes updated_at. -/
theorem update_user_frame_witness :
    (MainApp.update_user
        ⟨"u1", "a@x.com", "alice", Digest.bcrypt 0 "password123", true,
          false, 3, 5, none⟩
        ⟨none, none, some "admin", none, none⟩ 0 9).1 =
      ⟨"u1", "a@x.com", "alice", Digest.bcrypt 0 "password123", true,
        false, 3, 5, none⟩ ∧
    (MainApp.update_user
        ⟨"u1", "a@x.com", "alice", Digest.bcrypt 0 "password123", true,
          false, 3, 5, none⟩
        ⟨some "new@x.com", none, none, none, none⟩ 0 9).1 =
      { MainApp.UserUpdate.appliedRow
          ⟨some "new@x.com", none, none, none, none⟩
          ⟨"u1", "a@x.com", "alice", Digest.bcrypt 0 "password123", true,
            false, 3, 5, none⟩ 0 with
          updated_at := 9 } := by
  constructor
  · exact (update_user_frame
      ⟨"u1", "a@x.com", "alice", Digest.bcrypt 0 "password123", true,
        false, 3, 5, none⟩
      ⟨none, none, some "admin", none, none⟩ 0 9
      (by intro p hp; cases hp)).2.2.1 (by decide)
  · exact (update_user_frame
      ⟨"u1", "a@x.com", "alice", Digest.bcrypt 0 "password123", true,
        false, 3, 5, none⟩
      ⟨some "new@x.com", none, none, none, none⟩ 0 9
      (by intro p hp; cases hp)).2.2.2.1 (by decide)

/-- C9: after a successful change-password with a new password distinct
from the old plaintext, the old plaintext no longer verifies against
the stored hash and the new plaintext verifies. -/
theorem change_password_invalidates_old (u : MainApp.User)
    (oldPw newPw : String) (salt now : Nat) (u' : MainApp.User)
    (hsucc : MainApp.change_password u ⟨oldPw, newPw⟩ salt now = .ok u')
    (hne : oldPw ≠ newPw) :
    MainApp.verify_password oldPw u'.hashed_password = .ok false ∧
    MainApp.verify_password newPw u'.hashed_password = .ok true := by
  have hhash : u'.hashed_password = MainApp.get_password_hash newPw salt := by
    unfold MainApp.change_password at hsucc
    repeat' split at hsucc
    all_goals first
      | (cases hsucc; rfl)
      | (exact absurd hsucc (by simp))
  rw [hhash]
  constructor
  · simp [MainApp.verify_password, MainApp.get_password_hash,
      pwdContextVerify, pwdContextHash, hne]
  · simp [MainApp.verify_password, MainApp.get_password_hash,
      pwdContextVerify, pwdContextHash]

/-- C9 witness: a concrete successful password change flips
verification from the old to the new plaintext. -/
theorem change_password_invalidates_old_witness :
    MainApp.verify_password "oldpassword1"
        (MainApp.User.mk "u1" "a@x.com" "alice"
          (MainApp.get_password_hash "newpassword1" 4) true false 0 7 none
          ).hashed_password = .ok false ∧
    MainApp.verify_password "newpassword1"
        (MainApp.User.mk "u1" "a@x.com" "alice"
          (MainApp.get_password_hash "newpassword1" 4) true false 0 7 none
          ).hashed_password = .ok true := by
  exact change_password_invalidates_old
    ⟨"u1", "a@x.com", "alice", Digest.bcrypt 2 "oldpassword1", true,
      false, 0, 0, none⟩
    "oldpassword1" "newpassword1" 4 7
    (MainApp.User.mk "u1" "a@x.com" "alice"
      (MainApp.get_password_hash "newpassword1" 4) true false 0 7 none)
    (by decide) (by decide)

/-- Helper: the first 20 characters of any token `simple_auth` signs
are the first 20 characters of the constant HS256 header segment,
whatever the payload. -/
theorem jwtEncodeS_take20 (p : SimpleAuth.SimplePayload) (secret : String) :
    (SimpleAuth.jwtEncodeS p secret).take 20 =
      "eyJhbGciOiJIUzI1NiIs".data := by
  unfold SimpleAuth.jwtEncodeS
  show ((SimpleAuth.headerB64 ++ '.' :: SimpleAuth.payloadSegment p) ++
      '.' :: SimpleAuth.signSegment secret
        (SimpleAuth.headerB64 ++ '.' :: SimpleAuth.payloadSegment p)).take
        20 = _
  rw [List.append_assoc, List.take_append_of_le_length (by decide)]
  decide

/-- Helper: the fabricated refresh string starts with `"refresh_"` and
contains no dot, so `jwt.decode` rejects it at every instant. -/
theorem fabricatedRefresh_never_verifies (p : SimpleAuth.SimplePayload)
    (secret : String) (t : Nat) :
    SimpleAuth.verify_token
        (SimpleAuth.fabricatedRefresh (SimpleAuth.jwtEncodeS p secret)) t =
      .error ⟨401, "Invalid token"⟩ := by
  unfold SimpleAuth.fabricatedRefresh
  rw [jwtEncodeS_take20]
  rfl

/-- C10: every successful `simple_auth` register or login returns a
`refresh_token` equal to the literal string "refresh_" concatenated
with the first 20 characters of the access token; that string can never
pass token verification; and the variant registers no refresh route to
consume it. -/
theorem simple_refresh_token_fabricated :
    (∀ (db : SimpleAuth.Db) (req : SimpleAuth.RegisterRequest)
        (newId : String) (salt now : Nat)
        (resp : SimpleAuth.AuthResponse) (db' : SimpleAuth.Db),
      SimpleAuth.register db req newId salt now = .ok (resp, db') →
      resp.refresh_token = "refresh_".data ++ resp.token.take 20 ∧
      ∀ t, SimpleAuth.verify_token resp.refresh_token t =
        .error ⟨401, "Invalid token"⟩) ∧
    (∀ (db : SimpleAuth.Db) (req : SimpleAuth.LoginRequest) (now : Nat)
        (resp : SimpleAuth.AuthResponse),
      SimpleAuth.login db req now = .ok resp →
      resp.refresh_token = "refresh_".data ++ resp.token.take 20 ∧
      ∀ t, SimpleAuth.verify_token resp.refresh_token t =
        .error ⟨401, "Invalid token"⟩) ∧
    (∀ m, (m, "/api/v1/auth/refresh") ∉ SimpleAuth.routes) := by
  refine ⟨?_, ?_, ?_⟩
  · intro db req newId salt now resp db' h
    unfold SimpleAuth.register at h
    cases hfind : db.find?
        (fun u => u.email = req.email || u.username = req.username) with
    | some existing =>
        rw [hfind] at h
        by_cases hem : existing.email = req.email
        · simp [hem] at h
        · simp [hem] at h
    | none =>
        rw [hfind] at h
        cases h
        exact ⟨rfl, fun t => fabricatedRefresh_never_verifies _ _ t⟩
  · intro db req now resp h
    unfold SimpleAuth.login at h
    cases hfind : db.find? (fun u => u.username = req.username) with
    | none => rw [hfind] at h; simp at h
    | some user =>
        rw [hfind] at h
        dsimp only at h
        cases hver : SimpleAuth.verify_password req.password
            user.hashed_password with
        | error e => rw [hver] at h; simp at h
        | ok b =>
            rw [hver] at h
            cases b with
            | false => simp at h
            | true =>
                cases ha : user.is_active with
                | false => simp [ha] at h
                | true =>
                    simp only [ha, Bool.not_true, Bool.false_eq_true,
                      if_false, reduceIte] at h
                    cases h
                    exact ⟨rfl,
                      fun t => fabricatedRefresh_never_verifies _ _ t⟩
  · intro m
    simp [SimpleAuth.routes]

/-- C10 witness: the law evaluated at a concrete registration. -/
theorem simple_refresh_token_fabricated_witness :
    SimpleAuth.fabricatedRefresh
        (SimpleAuth.create_access_token
          ⟨some "alice", some "id1", some "user"⟩ 0).1 =
      "refresh_".data ++
        (SimpleAuth.create_access_token
          ⟨some "alice", some "id1", some "user"⟩ 0).1.take 20 ∧
    SimpleAuth.verify_token
        (SimpleAuth.fabricatedRefresh
          (SimpleAuth.create_access_token
            ⟨some "alice", some "id1", some "user"⟩ 0).1) 3 =
      .error ⟨401, "Invalid token"⟩ := by
  have h := simple_refresh_token_fabricated.1 []
    ⟨"alice", "a@x.com", "password123"⟩ "id1" 0 0
    { token := (SimpleAuth.create_access_token
        ⟨some "alice", some "id1", some "user"⟩ 0).1
      refresh_token := SimpleAuth.fabricatedRefresh
        (SimpleAuth.create_access_token
          ⟨some "alice", some "id1", some "user"⟩ 0).1
      expires_at := (SimpleAuth.create_access_token
        ⟨some "alice", some "id1", some "user"⟩ 0).2
      user_id := "id1"
      username := "alice"
      email := "a@x.com"
      role := "user"
      permissions := [] }
    [⟨"id1", "a@x.com", "alice",
      SimpleAuth.get_password_hash "password123" 0, "user", true, 0, 0⟩]
    rfl
  exact ⟨h.1, h.2 3⟩

end DanteAuth
